import Mathlib

/-!
A shallow embedding of the event service in src/application.py.

The service is a Flask application with three endpoints (GET /health,
POST /events, GET /data) backed by a single MySQL table `events`.  The
embedding models the request handlers and the persistence helpers
(`get_db_connection`, `create_db_table`, `insert_data_into_db`,
`fetch_data_from_db`) as pure functions over an explicit database state.
Fallible operations return `Except`; raised Python exceptions are the
`Except.error` branch and the `try/except` blocks of the handlers become
pattern matches on that branch.  Every database-level action additionally
reports a trace of driver operations (`Op`), which makes statements such
as "no connection is attempted" or "the connection is always closed"
expressible.

MySQL itself is external to the repository; where its behavior matters
(NOT NULL constraints, DATE literal parsing, the ordering of
`ORDER BY date ASC` with NULLs first, idempotent DDL) it is modelled
directly in the state transition functions, restricted to the canonical
`YYYY-MM-DD` date literals that the specification talks about.
-/

namespace Backend

/-- JSON values, as far as the request payloads of this service use them. -/
inductive JVal
  | null
  | str (s : String)
  | num (n : Int)
  | boolean (b : Bool)
deriving DecidableEq, Repr

/-- A parsed JSON object body: an association list of keys to values,
corresponding to the Python dict returned by request.get_json(). -/
abbrev Payload := List (String × JVal)

/-- Python dict membership, the check written `field in payload`. -/
def hasField (p : Payload) (k : String) : Bool :=
  p.any (fun kv => kv.1 == k)

/-- Python dict lookup `payload.get(k)`: `none` when the key is absent. -/
def pGet (p : Payload) (k : String) : Option JVal :=
  (p.find? (fun kv => kv.1 == k)).map (fun kv => kv.2)

/-- A calendar date, the value a MySQL DATE column stores. -/
structure Date where
  year : Nat
  month : Nat
  day : Nat
deriving DecidableEq, Repr

/-- Gregorian leap-year rule, as MySQL applies it when validating a DATE. -/
def isLeap (y : Nat) : Bool :=
  (y % 4 == 0 && y % 100 != 0) || y % 400 == 0

/-- Number of days in a month, used to validate DATE literals. -/
def daysInMonth (y m : Nat) : Nat :=
  if m = 2 then (if isLeap y then 29 else 28)
  else if m = 4 ∨ m = 6 ∨ m = 9 ∨ m = 11 then 30
  else 31

/-- ASCII decimal digit test on a character. -/
def isDig (c : Char) : Bool :=
  48 ≤ c.toNat && c.toNat ≤ 57

/-- Numeric value of an ASCII decimal digit. -/
def dval (c : Char) : Nat := c.toNat - 48

/-- Modelled from MySQL: parsing of a canonical `YYYY-MM-DD` DATE literal
(the form the specification restricts itself to), on the character list of
the literal.  Returns `none` when the characters are not a valid date
literal of that shape, in which case a strict MySQL insert into a DATE
column fails. -/
def parseDateChars : List Char → Option Date
  | [y1, y2, y3, y4, h1, m1, m2, h2, d1, d2] =>
    if h1 == '-' && h2 == '-' &&
       isDig y1 && isDig y2 && isDig y3 && isDig y4 &&
       isDig m1 && isDig m2 && isDig d1 && isDig d2 then
      let y := dval y1 * 1000 + dval y2 * 100 + dval y3 * 10 + dval y4
      let m := dval m1 * 10 + dval m2
      let d := dval d1 * 10 + dval d2
      if 1000 ≤ y ∧ 1 ≤ m ∧ m ≤ 12 ∧ 1 ≤ d ∧ d ≤ daysInMonth y m then
        some ⟨y, m, d⟩
      else none
    else none
  | _ => none

/-- Modelled from MySQL: parsing of a canonical `YYYY-MM-DD` DATE literal
given as a string. -/
def parseDate (s : String) : Option Date :=
  parseDateChars s.toList

/-- The ASCII character of a decimal digit. -/
def digitChar (n : Nat) : Char := Char.ofNat (48 + n)

/-- Two-digit zero-padded decimal rendering, as strftime %m and %d. -/
def pad2 (n : Nat) : String :=
  String.mk [digitChar (n / 10), digitChar (n % 10)]

/-- Four-digit decimal rendering, as strftime %Y for four-digit years. -/
def pad4 (n : Nat) : String :=
  String.mk [digitChar (n / 1000 % 10), digitChar (n / 100 % 10),
             digitChar (n / 10 % 10), digitChar (n % 10)]

/-- The formatting `row[4].strftime("%Y-%m-%d")` applied by
fetch_data_from_db to a stored date. -/
def formatDate (d : Date) : String :=
  pad4 d.year ++ "-" ++ pad2 d.month ++ "-" ++ pad2 d.day

/-- A stored row of the `events` table. `title` and `date` are declared
NOT NULL in the schema, but the fetch code defensively handles NULL dates,
so the model keeps every descriptive column optional. -/
structure Row where
  id : Nat
  title : Option String
  description : Option String
  image_url : Option String
  date : Option Date
  location : Option String
deriving DecidableEq, Repr

/-- The declared type of the image_url column: the CREATE statement uses
TEXT, and the ALTER statement widens a legacy VARCHAR(255) to TEXT. -/
inductive ColType
  | varchar255
  | text
deriving DecidableEq, Repr

/-- The `events` table: its rows, the next AUTO_INCREMENT id, and the
current declared type of the image_url column. -/
structure Table where
  rows : List Row
  nextId : Nat
  imageUrlType : ColType
deriving DecidableEq, Repr

/-- The four environment values read by get_db_connection.  A value is
`none` when the variable is unset. -/
structure Env where
  db_host : Option String
  db_user : Option String
  db_password : Option String
  db_name : Option String
deriving DecidableEq, Repr

/-- The state a request executes against: the configuration environment,
whether the database server is reachable, and the `events` table
(`none` while the table does not exist yet). -/
structure DbState where
  env : Env
  reachable : Bool
  table : Option Table
deriving DecidableEq, Repr

/-- os.environ.get for the four configuration names. -/
def envGet (e : Env) (v : String) : Option String :=
  if v == "DB_HOST" then e.db_host
  else if v == "DB_USER" then e.db_user
  else if v == "DB_PASSWORD" then e.db_password
  else if v == "DB_NAME" then e.db_name
  else none

/-- Python falsiness of `os.environ.get(var)`: unset, or set to the empty
string. -/
def falsyEnv : Option String → Bool
  | none => true
  | some s => s == ""

/-- The list `required_vars` of get_db_connection. -/
def requiredVars : List String :=
  ["DB_HOST", "DB_USER", "DB_PASSWORD", "DB_NAME"]

/-- The comprehension `[var for var in required_vars if not os.environ.get(var)]`. -/
def missingVars (e : Env) : List String :=
  requiredVars.filter (fun v => falsyEnv (envGet e v))

/-- The kind of a raised exception: EnvironmentError, ConnectionError,
a database/driver error caught as generic Exception, or
NotImplementedError. -/
inductive ErrKind
  | envError
  | connError
  | dbError
  | notImpl
deriving DecidableEq, Repr

/-- A raised exception: its kind and its str() rendering. -/
structure Err where
  kind : ErrKind
  msg : String
deriving DecidableEq, Repr

/-- Driver operations recorded by the model: a successful pymysql.connect,
a failed connect attempt, the DDL statements, the DML statements, and
transaction/connection management. -/
inductive Op
  | connect
  | connectFail
  | createTable
  | alterTable
  | insertRow
  | selectRows
  | commit
  | rollback
  | closeConn
deriving DecidableEq, Repr

/-- get_db_connection: checks the four required environment values and
raises EnvironmentError naming the missing ones before any connection is
attempted; then attempts pymysql.connect, raising ConnectionError on an
OperationalError. -/
def get_db_connection (s : DbState) : Except Err Unit × List Op :=
  match missingVars s.env with
  | [] =>
    if s.reachable then (Except.ok (), [Op.connect])
    else (Except.error ⟨ErrKind.connError,
            "Failed to connect to the database: OperationalError"⟩,
          [Op.connectFail])
  | ms => (Except.error ⟨ErrKind.envError,
             "Missing environment variables: " ++ String.intercalate ", " ms⟩,
           [])

/-- The table as CREATE TABLE IF NOT EXISTS creates it: empty, first
AUTO_INCREMENT id 1, image_url already of type TEXT. -/
def emptyTable : Table :=
  { rows := [], nextId := 1, imageUrlType := ColType.text }

/-- create_db_table: opens a connection, runs CREATE TABLE IF NOT EXISTS
(a no-op when the table exists), then unconditionally runs
ALTER TABLE events MODIFY COLUMN image_url TEXT (idempotent on MySQL),
commits and closes the connection.  Errors from get_db_connection
propagate. -/
def create_db_table (s : DbState) : Except Err Unit × DbState × List Op :=
  match get_db_connection s with
  | (Except.error e, ops) => (Except.error e, s, ops)
  | (Except.ok _, ops) =>
    let t := s.table.getD emptyTable
    (Except.ok (), { s with table := some { t with imageUrlType := ColType.text } },
     ops ++ [Op.createTable, Op.alterTable, Op.commit, Op.closeConn])

/-- Modelled from pymysql/MySQL binding of a Python value into a text
column: an absent key or JSON null binds SQL NULL, a string passes
through, numbers and booleans are coerced to their decimal text. -/
def dbText : Option JVal → Option String
  | none => none
  | some JVal.null => none
  | some (JVal.str s) => some s
  | some (JVal.num n) => some (toString n)
  | some (JVal.boolean b) => some (if b then "1" else "0")

/-- Outcome of binding a payload value into the NOT NULL DATE column. -/
inductive DateBind
  | nullVal
  | dateVal (d : Date)
  | badVal
deriving DecidableEq, Repr

/-- Modelled from MySQL binding of a Python value into the DATE column:
absent or null binds SQL NULL, a string must parse as a date literal,
anything else is rejected by the strict-mode server. -/
def dbDate : Option JVal → DateBind
  | none => DateBind.nullVal
  | some JVal.null => DateBind.nullVal
  | some (JVal.str s) =>
    match parseDate s with
    | some d => DateBind.dateVal d
    | none => DateBind.badVal
  | some (JVal.num _) => DateBind.badVal
  | some (JVal.boolean _) => DateBind.badVal

/-- insert_data_into_db: ensures the schema via create_db_table, opens a
fresh connection, executes the five-column INSERT with the payload values
(dict .get, so absent optional fields insert NULL), commits on success;
on any execute failure rolls back and re-raises; the connection is closed
in a finally block on both paths.  A NULL title or date, or an invalid
date literal, violates the schema and fails the execute. -/
def insert_data_into_db (p : Payload) (s : DbState) :
    Except Err Unit × DbState × List Op :=
  match create_db_table s with
  | (Except.error e, s1, ops) => (Except.error e, s1, ops)
  | (Except.ok _, s1, ops1) =>
    match get_db_connection s1 with
    | (Except.error e, ops2) => (Except.error e, s1, ops1 ++ ops2)
    | (Except.ok _, ops2) =>
      let ops := ops1 ++ ops2 ++ [Op.insertRow]
      let t := s1.table.getD emptyTable
      match dbText (pGet p "title"), dbDate (pGet p "date") with
      | some titleVal, DateBind.dateVal d =>
        let r : Row :=
          { id := t.nextId, title := some titleVal,
            description := dbText (pGet p "description"),
            image_url := dbText (pGet p "image_url"),
            date := some d,
            location := dbText (pGet p "location") }
        (Except.ok (),
         { s1 with table := some { t with rows := t.rows ++ [r], nextId := t.nextId + 1 } },
         ops ++ [Op.commit, Op.closeConn])
      | none, _ =>
        (Except.error ⟨ErrKind.dbError, "Column \x27title\x27 cannot be null"⟩,
         s1, ops ++ [Op.rollback, Op.closeConn])
      | some _, DateBind.nullVal =>
        (Except.error ⟨ErrKind.dbError, "Column \x27date\x27 cannot be null"⟩,
         s1, ops ++ [Op.rollback, Op.closeConn])
      | some _, DateBind.badVal =>
        (Except.error ⟨ErrKind.dbError, "Incorrect date value"⟩,
         s1, ops ++ [Op.rollback, Op.closeConn])

/-- Comparison realising ORDER BY date ASC: MySQL sorts NULL dates first,
then dates in calendar order. -/
def dateLe : Option Date → Option Date → Bool
  | none, _ => true
  | some _, none => false
  | some a, some b =>
    decide (a.year < b.year ∨ (a.year = b.year ∧
      (a.month < b.month ∨ (a.month = b.month ∧ a.day ≤ b.day))))

/-- Row comparison used by the SELECT ordering. -/
def rowLe (a b : Row) : Bool := dateLe a.date b.date

/-- Insertion into a date-sorted list of rows. -/
def insertByDate (r : Row) : List Row → List Row
  | [] => [r]
  | x :: xs => if rowLe r x then r :: x :: xs else x :: insertByDate r xs

/-- The ordering the database applies for ORDER BY date ASC, realised as
an insertion sort (any date-sorted permutation is an admissible result of
the SELECT). -/
def sortByDate : List Row → List Row
  | [] => []
  | x :: xs => insertByDate x (sortByDate xs)

/-- One element of the JSON array produced by fetch_data_from_db: the six
row fields, with the date rendered by strftime or null. -/
structure EventOut where
  id : Nat
  title : Option String
  description : Option String
  image_url : Option String
  date : Option String
  location : Option String
deriving DecidableEq, Repr

/-- The per-row dict built by fetch_data_from_db:
`row[4].strftime("%Y-%m-%d") if row[4] else None` for the date. -/
def rowToOut (r : Row) : EventOut :=
  { id := r.id, title := r.title, description := r.description,
    image_url := r.image_url, date := r.date.map formatDate,
    location := r.location }

/-- fetch_data_from_db: ensures the schema, opens a connection, selects
all rows ordered by ascending date, maps them to output dicts, and closes
the connection in a finally block. -/
def fetch_data_from_db (s : DbState) :
    Except Err (List EventOut) × DbState × List Op :=
  match create_db_table s with
  | (Except.error e, s1, ops) => (Except.error e, s1, ops)
  | (Except.ok _, s1, ops1) =>
    match get_db_connection s1 with
    | (Except.error e, ops2) => (Except.error e, s1, ops1 ++ ops2)
    | (Except.ok _, ops2) =>
      let t := s1.table.getD emptyTable
      (Except.ok ((sortByDate t.rows).map rowToOut), s1,
       ops1 ++ ops2 ++ [Op.selectRows, Op.closeConn])

/-- A JSON response body, one constructor per shape the handlers emit. -/
inductive Body
  | objStatus (s : String)
  | objMessage (s : String)
  | objError (e : String)
  | objErrorDetail (e d : String)
  | objData (xs : List EventOut)
deriving DecidableEq, Repr

/-- An HTTP response: status code and JSON body. -/
structure Response where
  status : Nat
  body : Body
deriving DecidableEq, Repr

/-- The GET /health handler: `jsonify({"status": "healthy"}), 200`. -/
def health (s : DbState) : Response × DbState × List Op :=
  ({ status := 200, body := Body.objStatus "healthy" }, s, [])

/-- Python falsiness of the value returned by request.get_json(): `not
payload` holds for an absent body (None) and for an empty object. -/
def payloadFalsy : Option Payload → Bool
  | none => true
  | some [] => true
  | some (_ :: _) => false

/-- The POST /events handler create_event: validates that the payload is
truthy and contains the keys title and date, otherwise 400; then calls
insert_data_into_db, mapping success to 201, NotImplementedError to 501
and any other exception to 500 with a detail string. -/
def create_event (s : DbState) (body : Option Payload) :
    Response × DbState × List Op :=
  let p := body.getD []
  if payloadFalsy body || !(hasField p "title" && hasField p "date") then
    ({ status := 400,
       body := Body.objError "Missing required fields: \x27title\x27 and \x27date\x27" },
     s, [])
  else
    match insert_data_into_db p s with
    | (Except.ok _, s1, ops) =>
      ({ status := 201, body := Body.objMessage "Event created successfully" },
       s1, ops)
    | (Except.error e, s1, ops) =>
      match e.kind with
      | ErrKind.notImpl => ({ status := 501, body := Body.objError e.msg }, s1, ops)
      | _ => ({ status := 500,
                body := Body.objErrorDetail "During event creation" e.msg }, s1, ops)

/-- The GET /data handler get_data: calls fetch_data_from_db, mapping
success to 200 with a data array, NotImplementedError to 501 and any
other exception to 500 with a detail string. -/
def get_data (s : DbState) : Response × DbState × List Op :=
  match fetch_data_from_db s with
  | (Except.ok data, s1, ops) =>
    ({ status := 200, body := Body.objData data }, s1, ops)
  | (Except.error e, s1, ops) =>
    match e.kind with
    | ErrKind.notImpl => ({ status := 501, body := Body.objError e.msg }, s1, ops)
    | _ => ({ status := 500,
              body := Body.objErrorDetail "During data retrieval" e.msg }, s1, ops)

/-- The rows currently stored in the events table; the empty list while
the table does not exist. -/
def tableRows (s : DbState) : List Row :=
  (s.table.map Table.rows).getD []

/-- Number of occurrences of a driver operation in a trace. -/
def opCount (o : Op) (ops : List Op) : Nat := ops.count o

/-- A fully populated configuration environment, for concrete runs. -/
def healthyEnv : Env :=
  { db_host := some "h", db_user := some "u",
    db_password := some "p", db_name := some "n" }

/-- A reachable database with an existing empty events table. -/
def healthyState : DbState :=
  { env := healthyEnv, reachable := true, table := some emptyTable }

/-- A state with all four configuration values unset. -/
def noEnvState : DbState :=
  { env := { db_host := none, db_user := none,
             db_password := none, db_name := none },
    reachable := true, table := none }

/-- The response mapping the tail of create_event applies to the outcome
of insert_data_into_db: 201 on success, 501 on a NotImplementedError, 500
with a detail string otherwise. -/
def insertResponse : Except Err Unit × DbState × List Op → Response × DbState × List Op
  | (Except.ok _, s1, ops) =>
    ({ status := 201, body := Body.objMessage "Event created successfully" }, s1, ops)
  | (Except.error e, s1, ops) =>
    match e.kind with
    | ErrKind.notImpl => ({ status := 501, body := Body.objError e.msg }, s1, ops)
    | _ => ({ status := 500,
              body := Body.objErrorDetail "During event creation" e.msg }, s1, ops)

/-- The AUTO_INCREMENT id the next inserted row receives. -/
def nextIdOf (s : DbState) : Nat := (s.table.getD emptyTable).nextId

/-- The data array of a handler result, empty for non-data bodies. -/
def dataList (x : Response × DbState × List Op) : List EventOut :=
  match x.1.body with
  | Body.objData xs => xs
  | _ => []

/-- The row the INSERT statement of insert_data_into_db builds from a
payload: the next AUTO_INCREMENT id and the five bound payload values
(absent optional fields bind NULL through dict .get). -/
def insertedRow (p : Payload) (tv : String) (d : Date) (n : Nat) : Row :=
  { id := n, title := some tv,
    description := dbText (pGet p "description"),
    image_url := dbText (pGet p "image_url"),
    date := some d,
    location := dbText (pGet p "location") }

/-- A stored December row, for concrete runs. -/
def rowDec : Row :=
  { id := 1, title := some "B", description := none, image_url := none,
    date := some ⟨2024, 12, 1⟩, location := none }

/-- A stored January row, for concrete runs. -/
def rowJan : Row :=
  { id := 2, title := some "A", description := none, image_url := none,
    date := some ⟨2024, 1, 1⟩, location := none }

/-- A reachable state whose table holds the December row before the
January row, for concrete runs. -/
def twoRowState : DbState :=
  { env := healthyEnv, reachable := true,
    table := some { rows := [rowDec, rowJan], nextId := 3,
                    imageUrlType := ColType.text } }

/-! ### Helper lemmas about the embedded operations -/

/-- When the configuration is complete and the server reachable, opening a
connection succeeds with a single connect operation. -/
lemma conn_ok (s : DbState) (h1 : missingVars s.env = []) (h2 : s.reachable = true) :
    get_db_connection s = (Except.ok (), [Op.connect]) := by
  simp [get_db_connection, h1, h2]

/-- When the configuration is complete and the server reachable,
create_db_table succeeds, installs the widened table and reports the DDL
trace. -/
lemma create_ok (s : DbState) (h1 : missingVars s.env = []) (h2 : s.reachable = true) :
    create_db_table s =
      (Except.ok (),
       { s with table := some { s.table.getD emptyTable with imageUrlType := ColType.text } },
       [Op.connect, Op.createTable, Op.alterTable, Op.commit, Op.closeConn]) := by
  simp [create_db_table, conn_ok s h1 h2]

/-- create_db_table never changes the stored rows. -/
lemma create_rows (s : DbState) : tableRows (create_db_table s).2.1 = tableRows s := by
  rcases hg : get_db_connection s with ⟨r, ops⟩
  cases r with
  | error e => simp [create_db_table, hg]
  | ok u => cases ht : s.table <;> simp [create_db_table, hg, tableRows, ht, emptyTable]

/-- create_db_table preserves the configuration environment. -/
lemma create_env (s : DbState) : (create_db_table s).2.1.env = s.env := by
  rcases hg : get_db_connection s with ⟨r, ops⟩
  cases r <;> simp [create_db_table, hg]

/-- create_db_table preserves reachability. -/
lemma create_reachable (s : DbState) : (create_db_table s).2.1.reachable = s.reachable := by
  rcases hg : get_db_connection s with ⟨r, ops⟩
  cases r <;> simp [create_db_table, hg]

/-- A successful connection reports exactly one connect operation. -/
lemma conn_ok_trace (s : DbState) (r : Unit) (ops : List Op)
    (h : get_db_connection s = (Except.ok r, ops)) : ops = [Op.connect] := by
  unfold get_db_connection at h
  revert h
  split
  · split <;> intro h <;> simp_all
  · intro h
    simp at h

/-- A failed connection attempt reports no close and no successful
connect: either the environment check aborted before connecting, or the
single connect attempt failed. -/
lemma conn_err_trace (s : DbState) (e : Err) (ops : List Op)
    (h : get_db_connection s = (Except.error e, ops)) :
    ops = [] ∨ ops = [Op.connectFail] := by
  unfold get_db_connection at h
  revert h
  split
  · split <;> intro h <;> simp_all
  · intro h
    simp only [Prod.mk.injEq, Except.error.injEq] at h
    left
    exact h.2.symm

/-- A raised connection error is an EnvironmentError or a ConnectionError,
never a NotImplementedError. -/
lemma conn_err_kind (s : DbState) (e : Err) (ops : List Op)
    (h : get_db_connection s = (Except.error e, ops)) :
    e.kind = ErrKind.envError ∨ e.kind = ErrKind.connError := by
  unfold get_db_connection at h
  revert h
  split
  · split
    · intro h
      simp at h
    · intro h
      simp only [Prod.mk.injEq, Except.error.injEq] at h
      right
      rw [← h.1]
  · intro h
    simp only [Prod.mk.injEq, Except.error.injEq] at h
    left
    rw [← h.1]

/-- Every connection opened by create_db_table is closed again. -/
lemma create_balanced (s : DbState) :
    opCount Op.closeConn (create_db_table s).2.2 = opCount Op.connect (create_db_table s).2.2 := by
  rcases hg : get_db_connection s with ⟨r, ops⟩
  cases r with
  | error e =>
    rcases conn_err_trace s e ops hg with h | h <;>
      simp [create_db_table, hg, h, opCount]
  | ok u =>
    have := conn_ok_trace s u ops hg
    subst this
    simp [create_db_table, hg, opCount]

/-- Errors raised by create_db_table are connection-layer errors. -/
lemma create_err_kind (s : DbState) (e : Err) (s1 : DbState) (ops : List Op)
    (h : create_db_table s = (Except.error e, s1, ops)) :
    e.kind = ErrKind.envError ∨ e.kind = ErrKind.connError := by
  rcases hg : get_db_connection s with ⟨r, ops0⟩
  cases r with
  | error e0 =>
    have : e0 = e := by simp [create_db_table, hg] at h; exact h.1
    exact this ▸ conn_err_kind s e0 ops0 hg
  | ok u => simp [create_db_table, hg] at h

/-- Errors raised by insert_data_into_db are environment, connection or
database errors, never NotImplementedError. -/
lemma insert_err_kind (p : Payload) (s : DbState) (e : Err) (s1 : DbState) (ops : List Op)
    (h : insert_data_into_db p s = (Except.error e, s1, ops)) :
    e.kind ≠ ErrKind.notImpl := by
  rcases hc : create_db_table s with ⟨r, sc, opsc⟩
  cases r with
  | error e0 =>
    simp [insert_data_into_db, hc] at h
    obtain ⟨he, -, -⟩ := h
    subst he
    rcases create_err_kind s e0 sc opsc hc with hk | hk <;> rw [hk] <;> decide
  | ok u =>
    rcases hg : get_db_connection sc with ⟨r2, ops2⟩
    cases r2 with
    | error e2 =>
      simp [insert_data_into_db, hc, hg] at h
      obtain ⟨he, -, -⟩ := h
      subst he
      rcases conn_err_kind sc e2 ops2 hg with hk | hk <;> rw [hk] <;> decide
    | ok u2 =>
      rcases ht : dbText (pGet p "title") with _ | tv <;>
        rcases hd : dbDate (pGet p "date") with _ | d | _ <;>
          simp [insert_data_into_db, hc, hg, ht, hd] at h <;>
            (obtain ⟨he, -, -⟩ := h; rw [← he]; decide)

/-- On any failure of insert_data_into_db the stored rows are unchanged:
the insert transaction was rolled back (schema-ensure commits no row
either). -/
lemma insert_err_rows (p : Payload) (s : DbState) (e : Err) (s1 : DbState) (ops : List Op)
    (h : insert_data_into_db p s = (Except.error e, s1, ops)) :
    tableRows s1 = tableRows s := by
  have hrows := create_rows s
  rcases hc : create_db_table s with ⟨r, sc, opsc⟩
  rw [hc] at hrows
  cases r with
  | error e0 =>
    simp [insert_data_into_db, hc] at h
    obtain ⟨-, hs, -⟩ := h
    rw [← hs]
    exact hrows
  | ok u =>
    rcases hg : get_db_connection sc with ⟨r2, ops2⟩
    cases r2 with
    | error e2 =>
      simp [insert_data_into_db, hc, hg] at h
      obtain ⟨-, hs, -⟩ := h
      rw [← hs]
      exact hrows
    | ok u2 =>
      rcases ht : dbText (pGet p "title") with _ | tv <;>
        rcases hd : dbDate (pGet p "date") with _ | d | _ <;>
          simp [insert_data_into_db, hc, hg, ht, hd] at h <;>
            (obtain ⟨-, hs, -⟩ := h; rw [← hs]; exact hrows)

/-- Every connection opened during insert_data_into_db is closed again,
on the success path and on every failure path. -/
lemma insert_balanced (p : Payload) (s : DbState) :
    opCount Op.closeConn (insert_data_into_db p s).2.2 =
      opCount Op.connect (insert_data_into_db p s).2.2 := by
  have hcb := create_balanced s
  rcases hc : create_db_table s with ⟨r, sc, opsc⟩
  rw [hc] at hcb
  cases r with
  | error e0 => simpa [insert_data_into_db, hc] using hcb
  | ok u =>
    rcases hg : get_db_connection sc with ⟨r2, ops2⟩
    cases r2 with
    | error e2 =>
      rcases conn_err_trace sc e2 ops2 hg with h2 | h2 <;>
        subst h2 <;>
          (simp [insert_data_into_db, hc, hg, opCount, List.count_append] at hcb ⊢; omega)
    | ok u2 =>
      have h2 := conn_ok_trace sc u2 ops2 hg
      subst h2
      rcases ht : dbText (pGet p "title") with _ | tv <;>
        rcases hd : dbDate (pGet p "date") with _ | d | _ <;>
          (simp [insert_data_into_db, hc, hg, ht, hd, opCount, List.count_append] at hcb ⊢; omega)

/-- Errors raised by fetch_data_from_db are environment or connection
errors, never NotImplementedError. -/
lemma fetch_err_kind (s : DbState) (e : Err) (s1 : DbState) (ops : List Op)
    (h : fetch_data_from_db s = (Except.error e, s1, ops)) :
    e.kind ≠ ErrKind.notImpl := by
  rcases hc : create_db_table s with ⟨r, sc, opsc⟩
  cases r with
  | error e0 =>
    simp [fetch_data_from_db, hc] at h
    obtain ⟨he, -, -⟩ := h
    subst he
    rcases create_err_kind s e0 sc opsc hc with hk | hk <;> rw [hk] <;> decide
  | ok u =>
    rcases hg : get_db_connection sc with ⟨r2, ops2⟩
    cases r2 with
    | error e2 =>
      simp [fetch_data_from_db, hc, hg] at h
      obtain ⟨he, -, -⟩ := h
      subst he
      rcases conn_err_kind sc e2 ops2 hg with hk | hk <;> rw [hk] <;> decide
    | ok u2 => simp [fetch_data_from_db, hc, hg] at h

/-- A key whose lookup succeeds is a member of the payload. -/
lemma pGet_hasField (p : Payload) (k : String) (v : JVal)
    (h : pGet p k = some v) : hasField p k = true := by
  unfold pGet at h
  cases hf : p.find? (fun kv => kv.1 == k) with
  | none => rw [hf] at h; simp at h
  | some kv =>
    unfold hasField
    rw [List.any_eq_true]
    have hmem := List.mem_of_find?_eq_some hf
    have hp := List.find?_some hf
    exact ⟨kv, hmem, hp⟩

/-- A payload containing a key is not the empty object. -/
lemma hasField_ne_nil (p : Payload) (k : String) (h : hasField p k = true) :
    p ≠ [] := by
  intro he
  subst he
  simp [hasField] at h

/-- A text binding that produced a value came from a present key. -/
lemma dbText_some_hasField (p : Payload) (k : String) (v : String)
    (h : dbText (pGet p k) = some v) : hasField p k = true := by
  cases hv : pGet p k with
  | none => rw [hv] at h; simp [dbText] at h
  | some jv => exact pGet_hasField p k jv hv

/-- The SELECT ordering is total. -/
lemma rowLe_total (a b : Row) : rowLe a b = true ∨ rowLe b a = true := by
  unfold rowLe
  cases a.date with
  | none => left; rfl
  | some x =>
    cases b.date with
    | none => right; rfl
    | some y =>
      simp only [dateLe, decide_eq_true_eq]
      omega

/-- The SELECT ordering is transitive. -/
lemma rowLe_trans (a b c : Row) (h1 : rowLe a b = true) (h2 : rowLe b c = true) :
    rowLe a c = true := by
  unfold rowLe at h1 h2 ⊢
  cases ha : a.date with
  | none => rfl
  | some x =>
    rw [ha] at h1
    cases hb : b.date with
    | none => rw [hb] at h1; simp [dateLe] at h1
    | some y =>
      rw [hb] at h1 h2
      cases hc : c.date with
      | none => rw [hc] at h2; simp [dateLe] at h2
      | some z =>
        rw [hc] at h2
        simp only [dateLe, decide_eq_true_eq] at h1 h2 ⊢
        omega

/-- Membership in an insertion step. -/
lemma mem_insertByDate (r y : Row) (l : List Row) :
    y ∈ insertByDate r l ↔ y = r ∨ y ∈ l := by
  induction l with
  | nil => simp [insertByDate]
  | cons x xs ih =>
    simp only [insertByDate]
    split
    · simp [List.mem_cons]
    · simp only [List.mem_cons, ih]
      tauto

/-- An insertion step permutes consing. -/
lemma perm_insertByDate (r : Row) (l : List Row) :
    (insertByDate r l).Perm (r :: l) := by
  induction l with
  | nil => simp [insertByDate]
  | cons x xs ih =>
    simp only [insertByDate]
    split
    · exact List.Perm.refl _
    · exact (List.Perm.cons x ih).trans (List.Perm.swap r x xs)

/-- An insertion step preserves date-sortedness. -/
lemma sorted_insertByDate (r : Row) (l : List Row)
    (hs : List.Sorted (fun a b => rowLe a b = true) l) :
    List.Sorted (fun a b => rowLe a b = true) (insertByDate r l) := by
  induction l with
  | nil => simp [insertByDate]
  | cons x xs ih =>
    rw [List.sorted_cons] at hs
    obtain ⟨hx, hxs⟩ := hs
    simp only [insertByDate]
    split
    · rename_i hle
      rw [List.sorted_cons]
      refine ⟨?_, ?_⟩
      · intro b hb
        rcases List.mem_cons.mp hb with rfl | hb2
        · exact hle
        · exact rowLe_trans r x b hle (hx b hb2)
      · rw [List.sorted_cons]
        exact ⟨hx, hxs⟩
    · rename_i hle
      rw [List.sorted_cons]
      refine ⟨?_, ih hxs⟩
      intro b hb
      rcases (mem_insertByDate r b xs).mp hb with rfl | hb2
      · rcases rowLe_total b x with h | h
        · exact absurd h hle
        · exact h
      · exact hx b hb2

/-- The SELECT result is date-sorted. -/
lemma sorted_sortByDate (l : List Row) :
    List.Sorted (fun a b => rowLe a b = true) (sortByDate l) := by
  induction l with
  | nil => simp [sortByDate]
  | cons x xs ih => exact sorted_insertByDate x (sortByDate xs) ih

/-- The SELECT result is a permutation of the stored rows. -/
lemma perm_sortByDate (l : List Row) : (sortByDate l).Perm l := by
  induction l with
  | nil => simp [sortByDate]
  | cons x xs ih =>
    exact (perm_insertByDate x (sortByDate xs)).trans (List.Perm.cons x ih)

/-- Bounds carried by the digit test. -/
lemma isDig_bounds (c : Char) (h : isDig c = true) :
    48 ≤ c.toNat ∧ c.toNat ≤ 57 := by
  simpa [isDig] using h

/-- Rendering the numeric value of a digit gives the digit back. -/
lemma digitChar_dval (c : Char) (h : isDig c = true) : digitChar (dval c) = c := by
  obtain ⟨h1, h2⟩ := isDig_bounds c h
  unfold digitChar dval
  have he : 48 + (c.toNat - 48) = c.toNat := by omega
  rw [he, Char.ofNat_toNat]

/-- Rebuilding a string from its character list. -/
lemma string_mk_data (s : String) : String.mk s.data = s := by
  cases s
  rfl

/-- Parsing a canonical date literal and formatting the parsed date
reproduces the original characters. -/
lemma parseDateChars_roundtrip (cs : List Char) (d : Date)
    (h : parseDateChars cs = some d) : (formatDate d).data = cs := by
  rcases cs with _ | ⟨c1, _ | ⟨c2, _ | ⟨c3, _ | ⟨c4, _ | ⟨c5, _ | ⟨c6, _ | ⟨c7, _ |
    ⟨c8, _ | ⟨c9, _ | ⟨c10, _ | ⟨c11, rest⟩⟩⟩⟩⟩⟩⟩⟩⟩⟩⟩ <;>
    simp [parseDateChars] at h
  obtain ⟨⟨⟨⟨⟨⟨⟨⟨⟨⟨hd5, hd8⟩, hg1⟩, hg2⟩, hg3⟩, hg4⟩, hg5⟩, hg6⟩, hg7⟩, hg8⟩, -, hsome⟩ := h
  subst hsome
  have b1 := isDig_bounds c1 hg1
  have b2 := isDig_bounds c2 hg2
  have b3 := isDig_bounds c3 hg3
  have b4 := isDig_bounds c4 hg4
  have b6 := isDig_bounds c6 hg5
  have b7 := isDig_bounds c7 hg6
  have b9 := isDig_bounds c9 hg7
  have b10 := isDig_bounds c10 hg8
  have e1 : (dval c1 * 1000 + dval c2 * 100 + dval c3 * 10 + dval c4) / 1000 % 10 = dval c1 := by
    unfold dval
    omega
  have e2 : (dval c1 * 1000 + dval c2 * 100 + dval c3 * 10 + dval c4) / 100 % 10 = dval c2 := by
    unfold dval
    omega
  have e3 : (dval c1 * 1000 + dval c2 * 100 + dval c3 * 10 + dval c4) / 10 % 10 = dval c3 := by
    unfold dval
    omega
  have e4 : (dval c1 * 1000 + dval c2 * 100 + dval c3 * 10 + dval c4) % 10 = dval c4 := by
    unfold dval
    omega
  have e6 : (dval c6 * 10 + dval c7) / 10 = dval c6 := by
    unfold dval
    omega
  have e7 : (dval c6 * 10 + dval c7) % 10 = dval c7 := by
    unfold dval
    omega
  have e9 : (dval c9 * 10 + dval c10) / 10 = dval c9 := by
    unfold dval
    omega
  have e10 : (dval c9 * 10 + dval c10) % 10 = dval c10 := by
    unfold dval
    omega
  show [digitChar ((dval c1 * 1000 + dval c2 * 100 + dval c3 * 10 + dval c4) / 1000 % 10),
        digitChar ((dval c1 * 1000 + dval c2 * 100 + dval c3 * 10 + dval c4) / 100 % 10),
        digitChar ((dval c1 * 1000 + dval c2 * 100 + dval c3 * 10 + dval c4) / 10 % 10),
        digitChar ((dval c1 * 1000 + dval c2 * 100 + dval c3 * 10 + dval c4) % 10), '-',
        digitChar ((dval c6 * 10 + dval c7) / 10),
        digitChar ((dval c6 * 10 + dval c7) % 10), '-',
        digitChar ((dval c9 * 10 + dval c10) / 10),
        digitChar ((dval c9 * 10 + dval c10) % 10)] =
      [c1, c2, c3, c4, c5, c6, c7, c8, c9, c10]
  rw [e1, e2, e3, e4, e6, e7, e9, e10,
      digitChar_dval c1 hg1, digitChar_dval c2 hg2, digitChar_dval c3 hg3,
      digitChar_dval c4 hg4, digitChar_dval c6 hg5, digitChar_dval c7 hg6,
      digitChar_dval c9 hg7, digitChar_dval c10 hg8, hd5, hd8]

/-- The date round trip at string level: a string accepted by the DATE
parser formats back to itself. -/
lemma formatDate_parseDate (s : String) (d : Date) (h : parseDate s = some d) :
    formatDate d = s := by
  have hc := parseDateChars_roundtrip s.toList d h
  calc formatDate d = String.mk (formatDate d).data := (string_mk_data _).symm
    _ = String.mk s.data := by rw [hc]; rfl
    _ = s := string_mk_data s

/-- Inversion of a successful connection: the configuration was complete
and the server reachable. -/
lemma conn_ok_inv (s : DbState) (r : Unit) (ops : List Op)
    (h : get_db_connection s = (Except.ok r, ops)) :
    missingVars s.env = [] ∧ s.reachable = true := by
  unfold get_db_connection at h
  revert h
  split
  · rename_i hm
    split
    · rename_i hr
      intro h
      exact ⟨hm, hr⟩
    · intro h
      simp at h
  · intro h
    simp at h

/-- Inversion of a successful create_db_table: the configuration was
complete, the server reachable, and the result state and trace are the
canonical ones. -/
lemma create_ok_inv (s : DbState) (u : Unit) (s1 : DbState) (ops : List Op)
    (h : create_db_table s = (Except.ok u, s1, ops)) :
    missingVars s.env = [] ∧ s.reachable = true ∧
    s1 = { s with table := some { s.table.getD emptyTable with imageUrlType := ColType.text } } ∧
    ops = [Op.connect, Op.createTable, Op.alterTable, Op.commit, Op.closeConn] := by
  rcases hg : get_db_connection s with ⟨r, ops0⟩
  cases r with
  | error e => simp [create_db_table, hg] at h
  | ok u0 =>
    obtain ⟨h1, h2⟩ := conn_ok_inv s u0 ops0 hg
    have := conn_ok_trace s u0 ops0 hg
    subst this
    simp [create_db_table, hg] at h
    exact ⟨h1, h2, h.1.symm, h.2.symm⟩

/-- The rows of the table after schema-ensure are the stored rows. -/
lemma widened_rows (s : DbState) :
    ({ s.table.getD emptyTable with imageUrlType := ColType.text } : Table).rows = tableRows s := by
  cases hst : s.table <;> simp [tableRows, hst, emptyTable]

/-- With complete configuration and a reachable server, GET /data answers
200 with the date-sorted rows mapped to output objects. -/
lemma get_data_ok (s : DbState) (h1 : missingVars s.env = []) (h2 : s.reachable = true) :
    (get_data s).1 =
      { status := 200,
        body := Body.objData ((sortByDate (tableRows s)).map rowToOut) } := by
  have hcreate := create_ok s h1 h2
  have h1b : missingVars ({ s with table := some { s.table.getD emptyTable with imageUrlType := ColType.text } } : DbState).env = [] := h1
  have h2b : ({ s with table := some { s.table.getD emptyTable with imageUrlType := ColType.text } } : DbState).reachable = true := h2
  have hconn := conn_ok _ h1b h2b
  simp [get_data, fetch_data_from_db, hcreate, hconn, widened_rows s]

/-- For a payload carrying both required keys, the POST /events handler
result is exactly the insert outcome mapping: the validation branch is
not taken and insert_data_into_db is invoked. -/
lemma create_event_insert_shape (s : DbState) (p : Payload)
    (ht : hasField p "title" = true) (hd : hasField p "date" = true) :
    create_event s (some p) = insertResponse (insert_data_into_db p s) := by
  have hpf : payloadFalsy (some p) = false := by
    cases p with
    | nil => simp [hasField] at ht
    | cons kv rest => rfl
  unfold create_event
  dsimp only
  rcases hi : insert_data_into_db p s with ⟨r, s1, ops⟩
  cases r with
  | ok u => simp [hpf, ht, hd, hi, insertResponse]
  | error e =>
    cases e with
    | mk ek em => cases ek <;> simp [hpf, ht, hd, hi, insertResponse]

/-- A key that is not in the payload looks up to nothing. -/
lemma pGet_none_of_not_hasField (p : Payload) (k : String) (h : hasField p k = false) :
    pGet p k = none := by
  unfold pGet
  cases hf : p.find? (fun kv => kv.1 == k) with
  | none => rfl
  | some kv =>
    exfalso
    have hmem := List.mem_of_find?_eq_some hf
    have hp := List.find?_some hf
    have htrue : hasField p k = true := by
      unfold hasField
      rw [List.any_eq_true]
      exact ⟨kv, hmem, hp⟩
    rw [htrue] at h
    cases h

/-- With complete configuration, a reachable server, a title that binds a
value and a date string accepted by the DATE parser, insert_data_into_db
succeeds, appending exactly one row carrying the five payload fields, and
closes both connections it opened. -/
lemma insert_ok_of_valid (s : DbState) (p : Payload)
    (h1 : missingVars s.env = []) (h2 : s.reachable = true)
    (tv ds : String) (d : Date)
    (htl : dbText (pGet p "title") = some tv)
    (hds : pGet p "date" = some (JVal.str ds))
    (hpd : parseDate ds = some d) :
    insert_data_into_db p s =
      (Except.ok (),
       { env := s.env, reachable := s.reachable,
         table := some { rows := tableRows s ++ [insertedRow p tv d (nextIdOf s)],
                         nextId := nextIdOf s + 1,
                         imageUrlType := ColType.text } },
       [Op.connect, Op.createTable, Op.alterTable, Op.commit, Op.closeConn,
        Op.connect, Op.insertRow, Op.commit, Op.closeConn]) := by
  have hcreate := create_ok s h1 h2
  have h1b : missingVars ({ s with table := some { s.table.getD emptyTable with imageUrlType := ColType.text } } : DbState).env = [] := h1
  have h2b : ({ s with table := some { s.table.getD emptyTable with imageUrlType := ColType.text } } : DbState).reachable = true := h2
  have hconn := conn_ok _ h1b h2b
  have hdate : dbDate (pGet p "date") = DateBind.dateVal d := by
    rw [hds]
    simp [dbDate, hpd]
  simp [insert_data_into_db, hcreate, hconn, htl, hdate, widened_rows s, nextIdOf, insertedRow]

/-! ### The claims -/

/-- C4: GET /health always returns status 200 with body
{"status":"healthy"}, leaves the state untouched, performs no database
operation, and does so for every state, so its result depends neither on
database availability nor on any configuration value. -/
theorem health_always_healthy (s : DbState) :
    health s = ({ status := 200, body := Body.objStatus "healthy" }, s, []) := rfl

/-- C3: for every request body that is absent, empty, or lacks the key
title or the key date, POST /events returns status 400 with body
{"error":"Missing required fields: \x27title\x27 and \x27date\x27"}, the state is
unchanged (no row persisted) and no database operation of any kind is
attempted. -/
theorem create_event_missing_fields_400 (s : DbState) (body : Option Payload)
    (h : payloadFalsy body = true ∨ hasField (body.getD []) "title" = false ∨
         hasField (body.getD []) "date" = false) :
    create_event s body =
      ({ status := 400,
         body := Body.objError "Missing required fields: \x27title\x27 and \x27date\x27" },
       s, []) := by
  unfold create_event
  rcases h with h | h | h <;> simp [h]

/-- Witness for C3: the spec example payload {"title":"No Date"} is
rejected with 400 and without touching the database. -/
theorem create_event_missing_fields_400_witness :
    create_event healthyState (some [("title", JVal.str "No Date")]) =
      ({ status := 400,
         body := Body.objError "Missing required fields: \x27title\x27 and \x27date\x27" },
       healthyState, []) :=
  create_event_missing_fields_400 healthyState (some [("title", JVal.str "No Date")])
    (Or.inr (Or.inr (by decide)))

/-- C7: schema setup is idempotent: when create_db_table succeeds, running
it again succeeds, changes nothing (the state after two invocations is the
state after one) and reports the same trace, with the single events table
still in place. -/
theorem create_db_table_idempotent (s : DbState) (u : Unit) (s1 : DbState) (ops : List Op)
    (h : create_db_table s = (Except.ok u, s1, ops)) :
    create_db_table s1 = (Except.ok (), s1, ops) := by
  obtain ⟨h1, h2, rfl, rfl⟩ := create_ok_inv s u s1 ops h
  have h1b : missingVars ({ s with table := some { s.table.getD emptyTable with imageUrlType := ColType.text } } : DbState).env = [] := h1
  have h2b : ({ s with table := some { s.table.getD emptyTable with imageUrlType := ColType.text } } : DbState).reachable = true := h2
  rw [create_ok _ h1b h2b]
  rfl

/-- Witness for C7: creating the table on a fresh state and then invoking
create_db_table again returns the same state and trace with no error. -/
theorem create_db_table_idempotent_witness :
    create_db_table { env := healthyEnv, reachable := true, table := some emptyTable } =
      (Except.ok (), { env := healthyEnv, reachable := true, table := some emptyTable },
       [Op.connect, Op.createTable, Op.alterTable, Op.commit, Op.closeConn]) :=
  create_db_table_idempotent { env := healthyEnv, reachable := true, table := none } ()
    { env := healthyEnv, reachable := true, table := some emptyTable }
    [Op.connect, Op.createTable, Op.alterTable, Op.commit, Op.closeConn] (by rfl)

/-- C9: the not-implemented branch is dead: no operation of the service
raises NotImplementedError, so POST /events and GET /data never answer
with status 501, whatever the request body and whatever the state. -/
theorem no_501_responses (s : DbState) (body : Option Payload) :
    (create_event s body).1.status ≠ 501 ∧ (get_data s).1.status ≠ 501 := by
  constructor
  · unfold create_event
    dsimp only
    split
    · simp
    · rcases hi : insert_data_into_db (body.getD []) s with ⟨r, s1, ops⟩
      cases r with
      | ok u => simp [hi]
      | error e =>
        have hk := insert_err_kind (body.getD []) s e s1 ops hi
        cases e with
        | mk ek em =>
          cases ek <;> simp [hi]
          exact (hk rfl).elim
  · unfold get_data
    rcases hf : fetch_data_from_db s with ⟨r, s1, ops⟩
    cases r with
    | ok data => simp [hf]
    | error e =>
      have hk := fetch_err_kind s e s1 ops hf
      cases e with
      | mk ek em =>
        cases ek <;> simp [hf]
        exact (hk rfl).elim

/-- C5: inserting is atomic with guaranteed cleanup: every connection
opened during insert_data_into_db is closed again, on the success path and
on every failure path, and whenever any step fails the error is
propagated as the result while the stored rows are unchanged (the
transaction was rolled back). -/
theorem insert_atomic_cleanup (p : Payload) (s : DbState) :
    opCount Op.closeConn (insert_data_into_db p s).2.2 =
      opCount Op.connect (insert_data_into_db p s).2.2 ∧
    (∀ e s1 ops, insert_data_into_db p s = (Except.error e, s1, ops) →
      tableRows s1 = tableRows s) :=
  ⟨insert_balanced p s, fun e s1 ops h => insert_err_rows p s e s1 ops h⟩

/-- Witness for C5: a failing insert (NULL title on a healthy state)
leaves the rows unchanged and closes every opened connection. -/
theorem insert_atomic_cleanup_witness :
    opCount Op.closeConn
        (insert_data_into_db [("title", JVal.null), ("date", JVal.null)] healthyState).2.2 =
      opCount Op.connect
        (insert_data_into_db [("title", JVal.null), ("date", JVal.null)] healthyState).2.2 ∧
    tableRows (insert_data_into_db [("title", JVal.null), ("date", JVal.null)] healthyState).2.1 =
      tableRows healthyState := by
  refine ⟨(insert_atomic_cleanup [("title", JVal.null), ("date", JVal.null)] healthyState).1, ?_⟩
  exact (insert_atomic_cleanup [("title", JVal.null), ("date", JVal.null)] healthyState).2
    ⟨ErrKind.dbError, "Column \x27title\x27 cannot be null"⟩ healthyState
    [Op.connect, Op.createTable, Op.alterTable, Op.commit, Op.closeConn,
     Op.connect, Op.insertRow, Op.rollback, Op.closeConn] rfl

/-- C6: with any of the four configuration values missing, the
environment check fails before any connection is attempted (empty trace),
with a message listing exactly the missing names, and both
database-touching endpoints surface it as a 500 error/detail response
while persisting nothing and attempting no database operation. -/
theorem missing_config_500 (s : DbState) (p : Payload)
    (hm : missingVars s.env ≠ [])
    (ht : hasField p "title" = true) (hd : hasField p "date" = true) :
    get_db_connection s =
      (Except.error ⟨ErrKind.envError,
         "Missing environment variables: " ++
           String.intercalate ", " (missingVars s.env)⟩, []) ∧
    (∀ v, v ∈ missingVars s.env ↔
      v ∈ requiredVars ∧ falsyEnv (envGet s.env v) = true) ∧
    create_event s (some p) =
      ({ status := 500,
         body := Body.objErrorDetail "During event creation"
           ("Missing environment variables: " ++
             String.intercalate ", " (missingVars s.env)) },
       s, []) ∧
    get_data s =
      ({ status := 500,
         body := Body.objErrorDetail "During data retrieval"
           ("Missing environment variables: " ++
             String.intercalate ", " (missingVars s.env)) },
       s, []) := by
  have hmem : ∀ v, v ∈ missingVars s.env ↔
      v ∈ requiredVars ∧ falsyEnv (envGet s.env v) = true := by
    intro v
    simp [missingVars, List.mem_filter]
  have hconn : get_db_connection s =
      (Except.error ⟨ErrKind.envError,
         "Missing environment variables: " ++
           String.intercalate ", " (missingVars s.env)⟩, []) := by
    cases hms : missingVars s.env with
    | nil => exact absurd hms hm
    | cons m ms => rw [← hms]; simp [get_db_connection, hms]
  have hcreate : create_db_table s =
      (Except.error ⟨ErrKind.envError,
         "Missing environment variables: " ++
           String.intercalate ", " (missingVars s.env)⟩, s, []) := by
    simp [create_db_table, hconn]
  have hins : insert_data_into_db p s =
      (Except.error ⟨ErrKind.envError,
         "Missing environment variables: " ++
           String.intercalate ", " (missingVars s.env)⟩, s, []) := by
    simp [insert_data_into_db, hcreate]
  have hfetch : fetch_data_from_db s =
      (Except.error ⟨ErrKind.envError,
         "Missing environment variables: " ++
           String.intercalate ", " (missingVars s.env)⟩, s, []) := by
    simp [fetch_data_from_db, hcreate]
  have hpf : payloadFalsy (some p) = false := by
    cases p with
    | nil => simp [hasField] at ht
    | cons kv rest => rfl
  refine ⟨hconn, hmem, ?_, ?_⟩
  · unfold create_event
    dsimp only
    simp [hpf, ht, hd, hins]
  · simp [get_data, hfetch]

/-- Witness for C6: with every configuration value unset, POST /events on
a key-complete payload and GET /data both answer 500 with the message
naming all four variables, and no connection is attempted. -/
theorem missing_config_500_witness :
    get_db_connection noEnvState =
      (Except.error ⟨ErrKind.envError,
         "Missing environment variables: " ++
           String.intercalate ", " (missingVars noEnvState.env)⟩, []) ∧
    (∀ v, v ∈ missingVars noEnvState.env ↔
      v ∈ requiredVars ∧ falsyEnv (envGet noEnvState.env v) = true) ∧
    create_event noEnvState (some [("title", JVal.str "x"), ("date", JVal.str "2024-10-01")]) =
      ({ status := 500,
         body := Body.objErrorDetail "During event creation"
           ("Missing environment variables: " ++
             String.intercalate ", " (missingVars noEnvState.env)) },
       noEnvState, []) ∧
    get_data noEnvState =
      ({ status := 500,
         body := Body.objErrorDetail "During data retrieval"
           ("Missing environment variables: " ++
             String.intercalate ", " (missingVars noEnvState.env)) },
       noEnvState, []) :=
  missing_config_500 noEnvState [("title", JVal.str "x"), ("date", JVal.str "2024-10-01")]
    (by decide) (by decide) (by decide)

/-- C10: the validation of POST /events tests key presence only: whenever
both keys title and date are present the 400 branch is not taken and the
handler result is exactly the mapping of the attempted insert; in
particular with complete configuration and a reachable server a null
title or a null date surfaces as a 500 database error rather than 400. -/
theorem presence_only_validation (s : DbState) (p : Payload)
    (ht : hasField p "title" = true) (hd : hasField p "date" = true) :
    (create_event s (some p)).1.status ≠ 400 ∧
    create_event s (some p) = insertResponse (insert_data_into_db p s) ∧
    (missingVars s.env = [] → s.reachable = true →
      (pGet p "title" = some JVal.null ∨ pGet p "date" = some JVal.null) →
      (create_event s (some p)).1.status = 500) := by
  have hpf : payloadFalsy (some p) = false := by
    cases p with
    | nil => simp [hasField] at ht
    | cons kv rest => rfl
  have heq : create_event s (some p) = insertResponse (insert_data_into_db p s) := by
    unfold create_event
    dsimp only
    rcases hi : insert_data_into_db p s with ⟨r, s1, ops⟩
    cases r with
    | ok u => simp [hpf, ht, hd, hi, insertResponse]
    | error e =>
      cases e with
      | mk ek em => cases ek <;> simp [hpf, ht, hd, hi, insertResponse]
  have hstat : (create_event s (some p)).1.status ≠ 400 := by
    rw [heq]
    rcases hi : insert_data_into_db p s with ⟨r, s1, ops⟩
    cases r with
    | ok u => simp [hi, insertResponse]
    | error e =>
      cases e with
      | mk ek em => cases ek <;> simp [hi, insertResponse]
  refine ⟨hstat, heq, ?_⟩
  intro h1 h2 hnull
  rw [heq]
  have hcreate := create_ok s h1 h2
  have h1b : missingVars ({ s with table := some { s.table.getD emptyTable with imageUrlType := ColType.text } } : DbState).env = [] := h1
  have h2b : ({ s with table := some { s.table.getD emptyTable with imageUrlType := ColType.text } } : DbState).reachable = true := h2
  have hconn := conn_ok _ h1b h2b
  rcases hnull with hn | hn
  · have htitle : dbText (pGet p "title") = none := by rw [hn]; rfl
    simp [insert_data_into_db, hcreate, hconn, htitle, insertResponse]
  · have hdate : dbDate (pGet p "date") = DateBind.nullVal := by rw [hn]; rfl
    cases htl : dbText (pGet p "title") with
    | none => simp [insert_data_into_db, hcreate, hconn, htl, insertResponse]
    | some tv => simp [insert_data_into_db, hcreate, hconn, htl, hdate, insertResponse]

/-- Witness for C10: a payload carrying both keys with null values passes
validation (not 400) and fails in the database as a 500. -/
theorem presence_only_validation_witness :
    (create_event healthyState (some [("title", JVal.null), ("date", JVal.null)])).1.status ≠ 400 ∧
    (create_event healthyState (some [("title", JVal.null), ("date", JVal.null)])).1.status = 500 := by
  have h := presence_only_validation healthyState [("title", JVal.null), ("date", JVal.null)]
    (by decide) (by decide)
  exact ⟨h.1, h.2.2 rfl rfl (Or.inl (by decide))⟩

/-- C2: with complete configuration and a reachable server, GET /data
answers 200 with a data array that is a permutation of the stored rows
(whatever their insertion order) sorted by ascending date, each output
date being the stored date formatted as YYYY-MM-DD, or null when the
stored date is null. -/
theorem get_data_sorted (s : DbState)
    (h1 : missingVars s.env = []) (h2 : s.reachable = true) :
    ∃ rs : List Row, rs.Perm (tableRows s) ∧
      List.Sorted (fun a b => rowLe a b = true) rs ∧
      (get_data s).1 = { status := 200, body := Body.objData (rs.map rowToOut) } ∧
      ∀ r : Row, (rowToOut r).date = Option.map formatDate r.date :=
  ⟨sortByDate (tableRows s), perm_sortByDate _, sorted_sortByDate _,
   get_data_ok s h1 h2, fun _ => rfl⟩

/-- Witness for C2: on a table holding a December row before a January
row, GET /data answers 200 with a date-sorted permutation of the rows. -/
theorem get_data_sorted_witness :
    ∃ rs : List Row, rs.Perm (tableRows twoRowState) ∧
      List.Sorted (fun a b => rowLe a b = true) rs ∧
      (get_data twoRowState).1 =
        { status := 200, body := Body.objData (rs.map rowToOut) } ∧
      ∀ r : Row, (rowToOut r).date = Option.map formatDate r.date :=
  get_data_sorted twoRowState (by decide) (by decide)

/-- C1 counterexample: the payload {"title":null,"date":null} contains
both required keys, yet on a completely healthy state POST /events
answers 500, not 201, and persists no row: key presence alone does not
make the creation succeed. -/
theorem create_event_null_values_counterexample :
    hasField [("title", JVal.null), ("date", JVal.null)] "title" = true ∧
    hasField [("title", JVal.null), ("date", JVal.null)] "date" = true ∧
    (create_event healthyState (some [("title", JVal.null), ("date", JVal.null)])).1.status = 500 ∧
    (create_event healthyState (some [("title", JVal.null), ("date", JVal.null)])).1.status ≠ 201 ∧
    tableRows (create_event healthyState (some [("title", JVal.null), ("date", JVal.null)])).2.1 =
      tableRows healthyState :=
  ⟨by decide, by decide, by decide, by decide, by decide⟩

/-- C1 (amended): for every payload whose title binds a non-null value
and whose date is a string the DATE parser accepts, with complete
configuration and a reachable server, POST /events answers 201 with
{"message":"Event created successfully"} and appends exactly one row
carrying the five payload fields, absent optional fields binding null. -/
theorem create_event_valid_persists (s : DbState) (p : Payload)
    (h1 : missingVars s.env = []) (h2 : s.reachable = true)
    (tv ds : String) (d : Date)
    (htl : dbText (pGet p "title") = some tv)
    (hds : pGet p "date" = some (JVal.str ds))
    (hpd : parseDate ds = some d) :
    (create_event s (some p)).1 =
      { status := 201, body := Body.objMessage "Event created successfully" } ∧
    tableRows (create_event s (some p)).2.1 =
      tableRows s ++ [insertedRow p tv d (nextIdOf s)] ∧
    insertedRow p tv d (nextIdOf s) =
      { id := nextIdOf s, title := some tv,
        description := dbText (pGet p "description"),
        image_url := dbText (pGet p "image_url"),
        date := some d,
        location := dbText (pGet p "location") } ∧
    (∀ k, hasField p k = false → dbText (pGet p k) = none) := by
  have ht := dbText_some_hasField p "title" tv htl
  have hd := pGet_hasField p "date" (JVal.str ds) hds
  rw [create_event_insert_shape s p ht hd,
      insert_ok_of_valid s p h1 h2 tv ds d htl hds hpd]
  refine ⟨rfl, ?_, rfl, ?_⟩
  · simp [insertResponse, tableRows]
  · intro k hk
    rw [pGet_none_of_not_hasField p k hk]
    rfl

/-- Witness for C1 (amended): the spec example
{"title":"Fall Fest","date":"2024-10-01"} is created with 201 and its row
appended, optional fields null. -/
theorem create_event_valid_persists_witness :
    (create_event healthyState
        (some [("title", JVal.str "Fall Fest"), ("date", JVal.str "2024-10-01")])).1 =
      { status := 201, body := Body.objMessage "Event created successfully" } ∧
    tableRows (create_event healthyState
        (some [("title", JVal.str "Fall Fest"), ("date", JVal.str "2024-10-01")])).2.1 =
      tableRows healthyState ++
        [insertedRow [("title", JVal.str "Fall Fest"), ("date", JVal.str "2024-10-01")]
          "Fall Fest" ⟨2024, 10, 1⟩ (nextIdOf healthyState)] ∧
    insertedRow [("title", JVal.str "Fall Fest"), ("date", JVal.str "2024-10-01")]
        "Fall Fest" ⟨2024, 10, 1⟩ (nextIdOf healthyState) =
      { id := nextIdOf healthyState, title := some "Fall Fest",
        description := dbText (pGet [("title", JVal.str "Fall Fest"),
          ("date", JVal.str "2024-10-01")] "description"),
        image_url := dbText (pGet [("title", JVal.str "Fall Fest"),
          ("date", JVal.str "2024-10-01")] "image_url"),
        date := some ⟨2024, 10, 1⟩,
        location := dbText (pGet [("title", JVal.str "Fall Fest"),
          ("date", JVal.str "2024-10-01")] "location") } ∧
    (∀ k, hasField [("title", JVal.str "Fall Fest"),
        ("date", JVal.str "2024-10-01")] k = false →
      dbText (pGet [("title", JVal.str "Fall Fest"),
        ("date", JVal.str "2024-10-01")] k) = none) :=
  create_event_valid_persists healthyState
    [("title", JVal.str "Fall Fest"), ("date", JVal.str "2024-10-01")]
    (by decide) (by decide) "Fall Fest" "2024-10-01" ⟨2024, 10, 1⟩
    (by decide) (by decide) (by decide)

/-- C8: date round trip: inserting an event whose date is a string the
DATE parser accepts (canonical YYYY-MM-DD) and then fetching the data
yields, for the new row (identified by its fresh id), exactly the input
date string. -/
theorem date_round_trip (s : DbState) (p : Payload)
    (h1 : missingVars s.env = []) (h2 : s.reachable = true)
    (tv ds : String) (d : Date)
    (htl : dbText (pGet p "title") = some tv)
    (hds : pGet p "date" = some (JVal.str ds))
    (hpd : parseDate ds = some d)
    (hfresh : ∀ r ∈ tableRows s, r.id ≠ nextIdOf s) :
    (create_event s (some p)).1.status = 201 ∧
    (∃ out ∈ dataList (get_data (create_event s (some p)).2.1),
       out.id = nextIdOf s ∧ out.date = some ds) ∧
    (∀ out ∈ dataList (get_data (create_event s (some p)).2.1),
       out.id = nextIdOf s → out.date = some ds) := by
  have ht := dbText_some_hasField p "title" tv htl
  have hd := pGet_hasField p "date" (JVal.str ds) hds
  rw [create_event_insert_shape s p ht hd,
      insert_ok_of_valid s p h1 h2 tv ds d htl hds hpd]
  refine ⟨rfl, ?_, ?_⟩ <;> rw [show (insertResponse (Except.ok (),
      { env := s.env, reachable := s.reachable,
        table := some { rows := tableRows s ++ [insertedRow p tv d (nextIdOf s)],
                        nextId := nextIdOf s + 1,
                        imageUrlType := ColType.text } },
      [Op.connect, Op.createTable, Op.alterTable, Op.commit, Op.closeConn,
       Op.connect, Op.insertRow, Op.commit, Op.closeConn])).2.1 =
      { env := s.env, reachable := s.reachable,
        table := some { rows := tableRows s ++ [insertedRow p tv d (nextIdOf s)],
                        nextId := nextIdOf s + 1,
                        imageUrlType := ColType.text } } from rfl]
  all_goals {
    have hbody := get_data_ok
      { env := s.env, reachable := s.reachable,
        table := some { rows := tableRows s ++ [insertedRow p tv d (nextIdOf s)],
                        nextId := nextIdOf s + 1,
                        imageUrlType := ColType.text } } h1 h2
    have hdl : dataList (get_data
        { env := s.env, reachable := s.reachable,
          table := some { rows := tableRows s ++ [insertedRow p tv d (nextIdOf s)],
                          nextId := nextIdOf s + 1,
                          imageUrlType := ColType.text } }) =
        (sortByDate (tableRows s ++ [insertedRow p tv d (nextIdOf s)])).map rowToOut := by
      have hrows : tableRows
          { env := s.env, reachable := s.reachable,
            table := some { rows := tableRows s ++ [insertedRow p tv d (nextIdOf s)],
                            nextId := nextIdOf s + 1,
                            imageUrlType := ColType.text } } =
          tableRows s ++ [insertedRow p tv d (nextIdOf s)] := rfl
      rw [hrows] at hbody
      simp only [dataList, hbody]
    rw [hdl]
    first
    | · refine ⟨rowToOut (insertedRow p tv d (nextIdOf s)), ?_, rfl, ?_⟩
        · exact List.mem_map_of_mem rowToOut
            ((perm_sortByDate _).mem_iff.mpr
              (List.mem_append_right _ (List.mem_singleton_self _)))
        · show some (formatDate d) = some ds
          rw [formatDate_parseDate ds d hpd]
    | · intro out hout hid
        obtain ⟨r2, hr2, rfl⟩ := List.mem_map.mp hout
        have hr2b := (perm_sortByDate _).mem_iff.mp hr2
        rcases List.mem_append.mp hr2b with hL | hR
        · exact (hfresh r2 hL hid).elim
        · have hr2e := List.eq_of_mem_singleton hR
          subst hr2e
          show some (formatDate d) = some ds
          rw [formatDate_parseDate ds d hpd]
  }

/-- Witness for C8: the Fall Fest event inserted with date "2024-10-01"
comes back from GET /data with exactly that date string. -/
theorem date_round_trip_witness :
    (create_event healthyState
        (some [("title", JVal.str "Fall Fest"), ("date", JVal.str "2024-10-01")])).1.status = 201 ∧
    (∃ out ∈ dataList (get_data (create_event healthyState
        (some [("title", JVal.str "Fall Fest"), ("date", JVal.str "2024-10-01")])).2.1),
       out.id = nextIdOf healthyState ∧ out.date = some "2024-10-01") ∧
    (∀ out ∈ dataList (get_data (create_event healthyState
        (some [("title", JVal.str "Fall Fest"), ("date", JVal.str "2024-10-01")])).2.1),
       out.id = nextIdOf healthyState → out.date = some "2024-10-01") :=
  date_round_trip healthyState
    [("title", JVal.str "Fall Fest"), ("date", JVal.str "2024-10-01")]
    (by decide) (by decide) "Fall Fest" "2024-10-01" ⟨2024, 10, 1⟩
    (by decide) (by decide) (by decide)
    (by intro r hr; simp [tableRows, healthyState, emptyTable] at hr)

end Backend
